import Mathlib

/-!
Shallow embedding of `src/provider/model/DesktopWindow.ts` (layouts-service).

The embedding models the window entity's three-layer state
(`currentState` / `applicationState` / `modifiedState` / `temporaryState`),
the origin-tagged `updateState` pipeline and its native-command issuance,
the override lifecycle (`applyOverride` / `resetOverride`), the `sync`
pending-action barrier, the `transaction` coordinator control flow, the
bounds-transform classifier (`updateTransformType`), the group-change
protocol handler (`handleGroupChanged`), and the `currentState` getter.

JavaScript numbers are modelled as rationals (all arithmetic in the
modelled code paths is exact on the inputs considered).  Partial state
deltas (`Partial<EntityState>`) are modelled as per-property `Option`
slots; `forEachProperty` iterates exactly the present properties, each
handled independently, so the per-property functional form below is the
order-insensitive meaning of those loops.  Asynchronous native commands
are modelled as a list of issued commands (each pushed command is
registered as one pending action).
-/

namespace DesktopWindowSpec

/-! ## Basic data: points, constraints, window state, properties -/

structure Pt where
  x : ℚ
  y : ℚ
deriving DecidableEq

structure ResizeConstraint where
  resizableMin : Bool
  resizableMax : Bool
  minSize : ℚ
  maxSize : ℚ
deriving DecidableEq

structure ConstraintPair where
  x : ResizeConstraint
  y : ResizeConstraint
deriving DecidableEq

inductive WinState where
  | normal
  | minimized
  | maximized
deriving DecidableEq

/-- The property names of `EntityState` (the keys iterated by `forEachProperty`). -/
inductive Property where
  | center
  | halfSize
  | frame
  | hidden
  | state
  | icon
  | title
  | showTaskbarIcon
  | resizeConstraints
  | opacity
  | alwaysOnTop
  | maximizable
deriving DecidableEq

@[reducible] def PropType : Property → Type
  | .center => Pt
  | .halfSize => Pt
  | .frame => Bool
  | .hidden => Bool
  | .state => WinState
  | .icon => String
  | .title => String
  | .showTaskbarIcon => Bool
  | .resizeConstraints => ConstraintPair
  | .opacity => ℚ
  | .alwaysOnTop => Bool
  | .maximizable => Bool

instance (p : Property) : DecidableEq (PropType p) := by
  cases p <;> exact inferInstance

/-- A full `EntityState` snapshot: a value for every property. -/
abbrev EntityState := (p : Property) → PropType p

/-- A `Partial<EntityState>` delta: per-property optional slots. -/
abbrev StateDelta := (p : Property) → Option (PropType p)

def emptyDelta : StateDelta := fun _ => none

/-- A delta assigning a single property (`{[property]: value}` object literals). -/
def singleDelta (p : Property) (v : PropType p) : StateDelta :=
  Function.update emptyDelta p (some v)

def MAX_SAFE_INTEGER : ℚ := 9007199254740991

/-- The placeholder initial state used by the constructor (`createTemporaryState`). -/
def createTemporaryState : EntityState := fun p =>
  match p with
  | .center => ⟨500, 300⟩
  | .halfSize => ⟨200, 100⟩
  | .frame => false
  | .hidden => false
  | .state => .normal
  | .icon => ""
  | .title => ""
  | .showTaskbarIcon => true
  | .resizeConstraints =>
      ⟨⟨true, true, 0, MAX_SAFE_INTEGER⟩, ⟨true, true, 0, MAX_SAFE_INTEGER⟩⟩
  | .opacity => 1
  | .alwaysOnTop => false
  | .maximizable => true

inductive ActionOrigin where
  | APPLICATION
  | SERVICE
  | SERVICE_TEMPORARY
deriving DecidableEq

inductive LifecycleStage where
  | STARTING
  | READY
  | ENDING
deriving DecidableEq

/-- The mutable model state of one `DesktopWindow` relevant to state reconciliation. -/
structure WindowModel where
  currentState : EntityState
  applicationState : EntityState
  modifiedState : StateDelta
  temporaryState : StateDelta
  lifecycle : LifecycleStage

/-! ## Native commands

Each command pushed onto `actions` in `updateState` (and registered as a
pending action).  The rest-destructured `{...options}` object passed to the
final `window.updateOptions(options)` call is the record of the non-special
delta fields. -/

structure RestOptions where
  frame : Option Bool
  icon : Option String
  title : Option String
  showTaskbarIcon : Option Bool
  opacity : Option ℚ
  alwaysOnTop : Option Bool
  maximizable : Option Bool
deriving DecidableEq

structure BoundsRect where
  left : ℚ
  top : ℚ
  width : ℚ
  height : ℚ
deriving DecidableEq

inductive NativeCommand where
  | showCmd
  | hideCmd
  | restoreCmd
  | minimizeCmd
  | maximizeCmd
  | setBounds (b : BoundsRect)
  | setConstraints (resizable : Bool) (left right top bottom : Bool)
      (minWidth minHeight : ℚ) (maxWidth maxHeight : Option ℚ)
  | updateOptions (opts : RestOptions)
deriving DecidableEq

inductive WinError where
  | notReady
deriving DecidableEq

/-- The five delta fields destructured away from `{...options}` in `updateState`. -/
def specialProp : Property → Bool
  | .center => true
  | .halfSize => true
  | .state => true
  | .hidden => true
  | .resizeConstraints => true
  | _ => false

/-- The rest-destructured `options` object of the delta. -/
def restOptions (δ : StateDelta) : RestOptions :=
  ⟨δ .frame, δ .icon, δ .title, δ .showTaskbarIcon,
   δ .opacity, δ .alwaysOnTop, δ .maximizable⟩

/-- Whether `Object.keys(options).length > 0` for the rest-destructured options. -/
def hasRestOptions (δ : StateDelta) : Bool :=
  (δ .frame).isSome || (δ .icon).isSome || (δ .title).isSome ||
  (δ .showTaskbarIcon).isSome || (δ .opacity).isSome ||
  (δ .alwaysOnTop).isSome || (δ .maximizable).isSome

/-- Command issuance of `updateState` for non-APPLICATION origins.

`prevState` and `prevConstraints` are the values captured before
`Object.assign(this._currentState, delta)`; `cur` is the already-merged
current state (the code reads `this._currentState` after the merge when
computing bounds).  `win10Frame` is `isWin10() && state.frame`. -/
def buildCommands (δ : StateDelta) (prevState : WinState)
    (prevConstraints : ConstraintPair) (cur : EntityState) (win10 : Bool) :
    List NativeCommand :=
  let hiddenCmds : List NativeCommand :=
    match δ .hidden with
    | some h => [if h then .hideCmd else .showCmd]
    | none => []
  let stateCmds : List NativeCommand :=
    match δ .state with
    | some s =>
        if s = prevState then []
        else
          match s with
          | .normal => [.restoreCmd]
          | .minimized => [.minimizeCmd]
          | .maximized => [.maximizeCmd]
    | none => []
  let boundsCmds : List NativeCommand :=
    if (δ .center).isSome || (δ .halfSize).isSome then
      let c : Pt := cur .center
      let h : Pt := cur .halfSize
      let c2 : Pt := if win10 && cur .frame then ⟨c.x, c.y + 7/2⟩ else c
      let h2 : Pt := if win10 && cur .frame then ⟨h.x + 7, h.y + 7/2⟩ else h
      [.setBounds ⟨c2.x - h2.x, c2.y - h2.y, h2.x * 2, h2.y * 2⟩]
    else []
  let rcCmds : List NativeCommand :=
    match δ .resizeConstraints with
    | some rc =>
        let maxW : Option ℚ :=
          if rc.x.maxSize = MAX_SAFE_INTEGER then
            (if prevConstraints.x.maxSize = MAX_SAFE_INTEGER then none else some (-1))
          else some rc.x.maxSize
        let maxH : Option ℚ :=
          if rc.y.maxSize = MAX_SAFE_INTEGER then
            (if prevConstraints.y.maxSize = MAX_SAFE_INTEGER then none else some (-1))
          else some rc.y.maxSize
        [.setConstraints
          (rc.x.resizableMin || rc.x.resizableMax || rc.y.resizableMin || rc.y.resizableMax)
          rc.x.resizableMin rc.x.resizableMax rc.y.resizableMin rc.y.resizableMax
          rc.x.minSize rc.y.minSize maxW maxH]
    | none => []
  let optCmds : List NativeCommand :=
    if hasRestOptions δ then [.updateOptions (restOptions δ)] else []
  hiddenCmds ++ stateCmds ++ boundsCmds ++ rcCmds ++ optCmds

/-- The `updateState(delta, origin)` routine.

Returns the updated model and the list of native commands issued (each
registered as a pending action), or `WinError.notReady` when the
`origin !== APPLICATION` readiness guard throws.  All reads on the
right-hand sides are of the pre-update state, matching the source order
(application/modified/temporary bookkeeping happens before
`Object.assign(this._currentState, delta)`). -/
def updateState (w : WindowModel) (δ : StateDelta) (origin : ActionOrigin)
    (win10 : Bool) : Except WinError (WindowModel × List NativeCommand) :=
  if origin ≠ ActionOrigin.APPLICATION ∧ w.lifecycle ≠ LifecycleStage.READY then
    .error .notReady
  else
    let appState' : EntityState := fun p =>
      if origin = ActionOrigin.APPLICATION then
        match δ p with
        | some v => if v = w.currentState p then w.applicationState p else v
        | none => w.applicationState p
      else w.applicationState p
    let modState' : StateDelta := fun p =>
      if origin = ActionOrigin.APPLICATION then w.modifiedState p
      else
        match δ p with
        | some v => if v = w.applicationState p then none else some v
        | none => w.modifiedState p
    let tempState' : StateDelta := fun p =>
      if origin = ActionOrigin.SERVICE_TEMPORARY then
        match δ p, w.temporaryState p with
        | some _, none => some (w.currentState p)
        | _, _ => w.temporaryState p
      else
        match δ p with
        | some _ => none
        | none => w.temporaryState p
    let cur' : EntityState := fun p => (δ p).getD (w.currentState p)
    let w' : WindowModel :=
      { currentState := cur', applicationState := appState',
        modifiedState := modState', temporaryState := tempState',
        lifecycle := w.lifecycle }
    if origin = ActionOrigin.APPLICATION then
      .ok (w', [])
    else
      .ok (w', buildCommands δ (w.currentState .state) (w.currentState .resizeConstraints) cur' win10)

/-- The `applyProperties(properties)` wrapper: a SERVICE-origin update. -/
def applyProperties (w : WindowModel) (δ : StateDelta) (win10 : Bool) :
    Except WinError (WindowModel × List NativeCommand) :=
  updateState w δ .SERVICE win10

/-- The `applyOverride(property, value)` routine: no-op when the value is
unchanged, else a SERVICE_TEMPORARY update of that single property. -/
def applyOverride (w : WindowModel) (p : Property) (v : PropType p) (win10 : Bool) :
    Except WinError (WindowModel × List NativeCommand) :=
  if v = w.currentState p then .ok (w, [])
  else updateState w (singleDelta p v) .SERVICE_TEMPORARY win10

/-- The `resetOverride(property)` routine: when a temporary backup exists,
writes it back to `currentState` and issues a SERVICE-origin update of
that property; otherwise does nothing. -/
def resetOverride (w : WindowModel) (p : Property) (win10 : Bool) :
    Except WinError (WindowModel × List NativeCommand) :=
  match w.temporaryState p with
  | none => .ok (w, [])
  | some v =>
      let w1 : WindowModel := { w with currentState := Function.update w.currentState p v }
      updateState w1 (singleDelta p v) .SERVICE win10

/-! ## Helpers for stating results -/

def stateAfter (r : Except WinError (WindowModel × List NativeCommand))
    (fallback : WindowModel) : WindowModel :=
  match r with
  | .ok (w, _) => w
  | .error _ => fallback

def resultCommands (r : Except WinError (WindowModel × List NativeCommand)) :
    List NativeCommand :=
  match r with
  | .ok (_, cs) => cs
  | .error _ => []

def resultOk (r : Except WinError (WindowModel × List NativeCommand)) : Bool :=
  match r with
  | .ok _ => true
  | .error _ => false

/-- A READY window freshly wrapped around the placeholder state. -/
def w0 : WindowModel :=
  { currentState := createTemporaryState, applicationState := createTemporaryState,
    modifiedState := emptyDelta, temporaryState := emptyDelta,
    lifecycle := .READY }

/-- A delta changing only `opacity` (the canonical temporary-override property). -/
def deltaOpacity (v : ℚ) : StateDelta := singleDelta .opacity v

/-- A delta changing only `maximizable`. -/
def deltaMaximizable (b : Bool) : StateDelta := singleDelta .maximizable b

/-! ## The `sync()` pending-action barrier

`sync()` repeatedly awaits the pending-action list; the list observed at
each check is modelled by `pending : Nat → Bool` giving whether the list
is non-empty after `n` awaits have completed (newly queued actions are
thereby accounted for).  `Except.ok n` means resolution after `n` awaits;
`Except.error n` models the rejection (`Couldn't sync ... attempts`),
carrying the number of awaits actually performed. -/

def MAX_AWAITS : Nat := 10

def syncFrom (pending : Nat → Bool) (awaitCount : Nat) : Except Nat Nat :=
  if pending awaitCount then
    if h : awaitCount + 1 ≤ MAX_AWAITS then syncFrom pending (awaitCount + 1)
    else .error awaitCount
  else .ok awaitCount
termination_by MAX_AWAITS + 1 - awaitCount
decreasing_by simp [MAX_AWAITS] at h ⊢; omega

def syncModel (pending : Nat → Bool) : Except Nat Nat := syncFrom pending 0

/-! ## The `transaction(windows, transform)` coordinator

Modelled as a trace semantics on the cooperative timeline: each step
appends the operations it performs.  `TxResult` is a trace of operations
together with success or the propagated failure; `txFinally` is the
`try { ... } finally { transaction.remove.call() }` block (the debounced
removal call never throws). -/

inductive TxOp where
  | syncOp (i : Nat)
  | unsnapOp (i : Nat)
  | snapOp (i : Nat)
  | removeCall
deriving DecidableEq

abbrev TxResult := List TxOp × Except String Unit

def txSeq (a b : TxResult) : TxResult :=
  match a with
  | (tr, .ok _) => (tr ++ b.1, b.2)
  | (tr, .error e) => (tr, .error e)

/-- `Promise.all(windows.map(w => w.f()))` for a per-window operation. -/
def txForEach (windows : List Nat) (f : Nat → TxOp) : TxResult :=
  (windows.map f, .ok ())

def txFinally (body fin : TxResult) : TxResult :=
  (body.1 ++ fin.1, body.2)

/-- The body of `DesktopWindow.transaction`: sync all, unsnap all, run the
caller-supplied `transform`, snap all; the transaction record's debounced
removal is triggered in the `finally` block.  Windows are identified by
index; `transform` is the caller-supplied step with its own trace and
outcome. -/
def transactionModel (windows : List Nat) (transform : TxResult) : TxResult :=
  txFinally
    (txSeq (txForEach windows .syncOp)
      (txSeq (txForEach windows .unsnapOp)
        (txSeq transform (txForEach windows .snapOp))))
    ([TxOp.removeCall], .ok ())

/-! ## The bounds-transform classifier (`updateTransformType`) -/

def MINIMUM_RESIZE_CHANGE : ℚ := 2
def MINIMUM_MOVE_CHANGE : ℚ := 2

/-- Transform-type bitmask values (`eTransformType`). -/
def MOVE : Nat := 1
def RESIZE : Nat := 2

/-- `Math.sign`. -/
def signQ (q : ℚ) : ℚ :=
  if q > 0 then 1 else if q < 0 then -1 else 0

/-- A `fin.WindowBoundsEvent`: edge-based bounds plus the runtime's own
`changeType` classification hint. -/
structure WindowBoundsEvent where
  left : ℚ
  top : ℚ
  width : ℚ
  height : ℚ
  changeType : Nat
deriving DecidableEq

structure RectQ where
  center : Pt
  halfSize : Pt
deriving DecidableEq

/-- The active bounds-change record for a user-initiated drag. -/
structure BoundsChange where
  transformType : Nat
  startBounds : RectQ
deriving DecidableEq

/-- `checkBounds`: the Windows-10 frame-shadow correction, applied when
`isWin10() && this._currentState.frame`. -/
def checkBounds (win10Frame : Bool) (b : BoundsRect) : BoundsRect :=
  if win10Frame then ⟨b.left + 7, b.top, b.width - 14, b.height - 7⟩ else b

/-- The per-axis classification closure `evaluateAxis` of
`updateTransformType`, on one axis's scalar components. -/
def evaluateAxis (startCenter startHalf c h : ℚ) : Nat :=
  let resize : Bool := decide (|h - startHalf| * 2 > MINIMUM_RESIZE_CHANGE)
  let expectedCenter : ℚ :=
    if resize = false then startCenter
    else
      let sizeChangeSign := signQ (h - startHalf)
      let centerChangeSign :=
        if signQ (c - startCenter) = 0 then 1 else signQ (c - startCenter)
      let expectedEdgeChanged := sizeChangeSign * centerChangeSign
      startCenter + expectedEdgeChanged * (h - startHalf)
  let move : Bool := decide (|expectedCenter - c| > MINIMUM_MOVE_CHANGE)
  (if move then MOVE else 0) ||| (if resize then RESIZE else 0)

inductive ConstraintToggle where
  | suspendConstraints
  | restoreConstraints
deriving DecidableEq

/-- `updateTransformType(event, boundsChange)`.

Returns the classified transform mask, the updated bounds-change record,
and the resize-constraint suspension toggle applied to the owning snap
group (at transitions into and out of pure-MOVE).  When `displayScaling`
is off the runtime's `changeType` hint is trusted directly (`+ 1` converts
it to the mask) and the record is untouched. -/
def updateTransformType (displayScaling win10Frame : Bool)
    (event : WindowBoundsEvent) (bc : BoundsChange) :
    Nat × BoundsChange × Option ConstraintToggle :=
  if displayScaling then
    let prevTransformType := bc.transformType
    let b := checkBounds win10Frame ⟨event.left, event.top, event.width, event.height⟩
    let h : Pt := ⟨b.width / 2, b.height / 2⟩
    let c : Pt := ⟨b.left + h.x, b.top + h.y⟩
    let t1 := bc.transformType |||
      evaluateAxis bc.startBounds.center.x bc.startBounds.halfSize.x c.x h.x
    let t2 := t1 |||
      evaluateAxis bc.startBounds.center.y bc.startBounds.halfSize.y c.y h.y
    let t3 := if t2 &&& MOVE ≠ 0 then MOVE else t2
    let toggle : Option ConstraintToggle :=
      if t3 = MOVE ∧ prevTransformType ≠ MOVE then some .suspendConstraints
      else if t3 ≠ MOVE ∧ prevTransformType = MOVE then some .restoreConstraints
      else none
    (t3, { bc with transformType := t3 }, toggle)
  else
    (event.changeType + 1, bc, none)

/-! ## The group-change protocol handler (`handleGroupChanged`) -/

structure WindowIdentity where
  uuid : String
  name : String
deriving DecidableEq

/-- An entry of `event.sourceGroup` / `event.targetGroup`. -/
structure EventWindow where
  appUuid : String
  windowName : String
deriving DecidableEq

inductive GroupReason where
  | leave
  | join
  | merge
  | disband
  | other (s : String)
deriving DecidableEq

/-- A `fin.WindowGroupChangedEvent`; `uuid`/`name` identify the window the
event was delivered to (every member window receives a copy). -/
structure GroupChangedEvent where
  uuid : String
  name : String
  sourceWindowAppUuid : String
  sourceWindowName : String
  targetWindowAppUuid : String
  targetWindowName : String
  reason : GroupReason
  sourceGroup : List EventWindow
  targetGroup : List EventWindow

/-- The slice of a `DesktopWindow` needed by the group handler: its
identity, its `_id` (`uuid/name`), and the identities of the windows of
its current snap group (`this._snapGroup.windows`, including itself). -/
structure GroupWindow where
  identity : WindowIdentity
  groupMembers : List WindowIdentity
deriving DecidableEq

/-- The `_id` string `uuid/name`. -/
def GroupWindow.id (w : GroupWindow) : String :=
  w.identity.uuid ++ "/" ++ w.identity.name

/-- An active transaction record as seen by the handler: the `_id`s of its
windows, plus a label for naming its debounced-removal handle. -/
structure Transaction where
  label : Nat
  windowIds : List String
deriving DecidableEq

/-- Modelled from the spec: `DesktopModel.getWindow` (a collaborator
outside this excerpt) resolves a window identity to its entity, or null. -/
def getWindow (model : List GroupWindow) (ident : WindowIdentity) :
    Option GroupWindow :=
  model.find? (fun w => decide (w.identity = ident))

/-- The comparator of `compareSnapAndEventWindowArrays`: sort by `uuid`,
ties by `name` (`localeCompare` modelled as string order). -/
def identLE (a b : WindowIdentity) : Bool :=
  match compare a.uuid b.uuid with
  | .lt => true
  | .gt => false
  | .eq =>
      match compare a.name b.name with
      | .gt => false
      | _ => true

def insertSorted (x : WindowIdentity) : List WindowIdentity → List WindowIdentity
  | [] => [x]
  | y :: ys => if identLE x y then x :: y :: ys else y :: insertSorted x ys

def sortIdentities (l : List WindowIdentity) : List WindowIdentity :=
  l.foldr insertSorted []

/-- Order-independent equality of a snap group's windows against an
event's reported window array (`compareSnapAndEventWindowArrays`). -/
def compareSnapAndEventWindowArrays (snapWindows : List WindowIdentity)
    (eventWindows : List EventWindow) : Bool :=
  decide (sortIdentities snapWindows =
    sortIdentities (eventWindows.map (fun w => ⟨w.appUuid, w.windowName⟩)))

/-- The transactions whose window list contains the event's target window
(`DesktopWindow.activeTransactions.filter(...)` in `handleGroupChanged`). -/
def relevantTransactions (model : List GroupWindow) (txs : List Transaction)
    (ev : GroupChangedEvent) : List Transaction :=
  txs.filter (fun t =>
    t.windowIds.any (fun wid =>
      match getWindow model ⟨ev.targetWindowAppUuid, ev.targetWindowName⟩ with
      | some tw => wid == tw.id
      | none => false))

/-- The handler's decision for one delivered event. -/
inductive GroupOutcome where
  | duplicate
  | deferred (postponedLabels : List Nat)
  | regroupSingleton
  | joinTarget (targetId : String)
  | mergeInto (targetId : String)
  | noAction
deriving DecidableEq

def GroupOutcome.isDeferred : GroupOutcome → Bool
  | .deferred _ => true
  | _ => false

/-- `handleGroupChanged(event)` on the receiving window `self`.

Mirrors the source: deduplication against the event's source window,
deferral (postponing each relevant transaction's debounced removal) when
the event's target window belongs to an active transaction, then the
reason switch.  The `await this.sync()` step is assumed quiescent. -/
def handleGroupChanged (self : GroupWindow) (model : List GroupWindow)
    (txs : List Transaction) (ev : GroupChangedEvent) : GroupOutcome :=
  if ev.name ≠ ev.sourceWindowName ∨ ev.uuid ≠ ev.sourceWindowAppUuid then
    .duplicate
  else
    let targetWindow := getWindow model ⟨ev.targetWindowAppUuid, ev.targetWindowName⟩
    let relevant := relevantTransactions model txs ev
    if relevant ≠ [] then
      .deferred (relevant.map Transaction.label)
    else
      match ev.reason with
      | .leave =>
          let modifiedSourceGroup :=
            ev.sourceGroup ++ [⟨self.identity.uuid, self.identity.name⟩]
          if self.groupMembers.length > 1 ∧
              compareSnapAndEventWindowArrays self.groupMembers modifiedSourceGroup = true then
            .regroupSingleton
          else
            .noAction
      | .join =>
          match targetWindow with
          | some tw =>
              if compareSnapAndEventWindowArrays self.groupMembers ev.targetGroup = true then
                .noAction
              else
                .joinTarget tw.id
          | none => .noAction
      | .merge =>
          match targetWindow with
          | some tw => .mergeInto tw.id
          | none => .noAction
      | .disband => .noAction
      | .other _ => .noAction

/-- Modelled from the spec: the group-membership effect, on the receiving
window itself, of the action its handler decided on.  `regroupSingleton`
is `setSnapGroup(new DesktopSnapGroup())`: the window becomes the sole
member of a brand-new group (`DesktopSnapGroup.addWindow` is a
collaborator outside this excerpt); all other outcomes leave this
window's own group assignment unchanged. -/
def applyOutcome (self : GroupWindow) (o : GroupOutcome) : GroupWindow :=
  match o with
  | .regroupSingleton => { self with groupMembers := [self.identity] }
  | _ => self

/-! ## The `currentState` getter -/

/-- The public `currentState` getter.  `monitorFor` is the collaborator
`DesktopModel.getMonitorByRect`, modelled from the spec as the rectangle
of the monitor containing the given bounds.  For a maximized window the
getter builds a fresh object spreading the stored state under the monitor
rectangle; otherwise it returns the stored state; being a pure function
of `stored`, it never modifies the stored state. -/
def currentStateGetter (monitorFor : RectQ → RectQ) (stored : EntityState) :
    EntityState :=
  if stored .state = WinState.maximized then
    let m := monitorFor ⟨stored .center, stored .halfSize⟩
    fun p =>
      match p with
      | .center => m.center
      | .halfSize => m.halfSize
      | q => stored q
  else stored

/-- Whether a property is one of the two geometry fields overwritten by
the maximized-window branch of the getter. -/
def geometryProp : Property → Bool
  | .center => true
  | .halfSize => true
  | _ => false

/-! ## Characterization lemmas for `updateState` -/

theorem singleDelta_same (p : Property) (v : PropType p) : singleDelta p v p = some v := by
  unfold singleDelta
  exact Function.update_same p (some v) emptyDelta

theorem updateState_application_eq (w : WindowModel) (δ : StateDelta) (win10 : Bool) :
    updateState w δ .APPLICATION win10 =
      .ok ({ currentState := fun p => (δ p).getD (w.currentState p),
             applicationState := fun p =>
               match δ p with
               | some v => if v = w.currentState p then w.applicationState p else v
               | none => w.applicationState p,
             modifiedState := w.modifiedState,
             temporaryState := fun p =>
               match δ p with
               | some _ => none
               | none => w.temporaryState p,
             lifecycle := w.lifecycle }, []) := rfl

theorem updateState_service_eq (w : WindowModel) (δ : StateDelta) (win10 : Bool)
    (hready : w.lifecycle = LifecycleStage.READY) :
    updateState w δ .SERVICE win10 =
      .ok ({ currentState := fun p => (δ p).getD (w.currentState p),
             applicationState := w.applicationState,
             modifiedState := fun p =>
               match δ p with
               | some v => if v = w.applicationState p then none else some v
               | none => w.modifiedState p,
             temporaryState := fun p =>
               match δ p with
               | some _ => none
               | none => w.temporaryState p,
             lifecycle := w.lifecycle },
        buildCommands δ (w.currentState .state) (w.currentState .resizeConstraints)
          (fun p => (δ p).getD (w.currentState p)) win10) := by
  unfold updateState
  rw [if_neg (by simp [hready])]
  rfl

theorem updateState_temp_eq (w : WindowModel) (δ : StateDelta) (win10 : Bool)
    (hready : w.lifecycle = LifecycleStage.READY) :
    updateState w δ .SERVICE_TEMPORARY win10 =
      .ok ({ currentState := fun p => (δ p).getD (w.currentState p),
             applicationState := w.applicationState,
             modifiedState := fun p =>
               match δ p with
               | some v => if v = w.applicationState p then none else some v
               | none => w.modifiedState p,
             temporaryState := fun p =>
               match δ p, w.temporaryState p with
               | some _, none => some (w.currentState p)
               | _, _ => w.temporaryState p,
             lifecycle := w.lifecycle },
        buildCommands δ (w.currentState .state) (w.currentState .resizeConstraints)
          (fun p => (δ p).getD (w.currentState p)) win10) := by
  unfold updateState
  rw [if_neg (by simp [hready])]
  rfl

/-! ## Claim C1 -/

/-- Counterexample input for C1: a window carrying a recorded service
override of `opacity` (`modifiedState.opacity = 3`, application value 1). -/
def w1cex : WindowModel := stateAfter (updateState w0 (deltaOpacity 3) .SERVICE false) w0

/-- C1 is false as stated: on a READY window whose `opacity` is recorded as
a service override in `modifiedState`, an APPLICATION-origin delta carrying
a fresh `opacity` value (different from `currentState`) does update
`applicationState` for that overridden field (to 5, away from the
application value 1). -/
theorem application_update_modified_field_cex :
    w1cex.lifecycle = LifecycleStage.READY ∧
    w1cex.modifiedState .opacity = some 3 ∧
    w1cex.applicationState .opacity = 1 ∧
    (stateAfter (updateState w1cex (deltaOpacity 5) .APPLICATION false) w1cex).applicationState .opacity
      = 5 := by
  refine ⟨by decide, by decide, by decide, by decide⟩

/-- C1 (amended): for every partial delta applied via `updateState` with
origin APPLICATION on a READY window, `applicationState` is updated only
for fields whose delta value differs from the pre-update `currentState`
value (so echoes of service-applied values leave `applicationState`
untouched, but a genuinely new value updates it even for fields recorded
in `modifiedState`); the delta is merged into `currentState`;
`modifiedState` is untouched; and no native commands are issued (no
pending actions are added). -/
theorem application_update_spec (w : WindowModel) (δ : StateDelta) (p : Property)
    (win10 : Bool) (_hready : w.lifecycle = LifecycleStage.READY) :
    resultOk (updateState w δ .APPLICATION win10) = true ∧
    resultCommands (updateState w δ .APPLICATION win10) = [] ∧
    (stateAfter (updateState w δ .APPLICATION win10) w).currentState p =
      (δ p).getD (w.currentState p) ∧
    ((δ p = none ∨ δ p = some (w.currentState p)) →
      (stateAfter (updateState w δ .APPLICATION win10) w).applicationState p =
        w.applicationState p) ∧
    (((δ p).isSome ∧ δ p ≠ some (w.currentState p)) →
      (stateAfter (updateState w δ .APPLICATION win10) w).applicationState p =
        (δ p).getD (w.applicationState p)) ∧
    (stateAfter (updateState w δ .APPLICATION win10) w).modifiedState p = w.modifiedState p := by
  rw [updateState_application_eq]
  refine ⟨rfl, rfl, rfl, ?_, ?_, rfl⟩
  · rintro (h | h) <;> simp [stateAfter, h]
  · rintro ⟨h1, h2⟩
    cases hd : δ p with
    | none => rw [hd] at h1; exact absurd h1 (by simp)
    | some v =>
        rw [hd] at h2
        simp [stateAfter, hd]
        intro hv
        exact absurd (by rw [hv]) h2

/-- Witness for C1 (amended) at a concrete input: the placeholder READY
window receiving an APPLICATION-origin `opacity := 7` delta. -/
theorem application_update_spec_witness :
    resultOk (updateState w0 (deltaOpacity 7) .APPLICATION false) = true ∧
    resultCommands (updateState w0 (deltaOpacity 7) .APPLICATION false) = [] ∧
    (stateAfter (updateState w0 (deltaOpacity 7) .APPLICATION false) w0).currentState .opacity =
      ((deltaOpacity 7) .opacity).getD (w0.currentState .opacity) ∧
    (stateAfter (updateState w0 (deltaOpacity 7) .APPLICATION false) w0).applicationState .opacity =
      ((deltaOpacity 7) .opacity).getD (w0.applicationState .opacity) ∧
    (stateAfter (updateState w0 (deltaOpacity 7) .APPLICATION false) w0).modifiedState .opacity =
      w0.modifiedState .opacity :=
  have h := application_update_spec w0 (deltaOpacity 7) .opacity false rfl
  ⟨h.1, h.2.1, h.2.2.1, h.2.2.2.2.1 ⟨by decide, by decide⟩, h.2.2.2.2.2⟩

/-! ## Claim C8 -/

/-- A window still STARTING (initial state not yet fetched). -/
def wStarting : WindowModel := { w0 with lifecycle := .STARTING }

/-- C8 is false as stated: an APPLICATION-origin `updateState` on a
non-READY window is not a no-op — it does not throw and issues no
commands, but it does merge the delta into `currentState` (here `opacity`
moves from 1 to 4). -/
theorem application_update_not_ready_cex :
    wStarting.lifecycle ≠ LifecycleStage.READY ∧
    resultOk (updateState wStarting (deltaOpacity 4) .APPLICATION false) = true ∧
    wStarting.currentState .opacity = 1 ∧
    (stateAfter (updateState wStarting (deltaOpacity 4) .APPLICATION false) wStarting).currentState .opacity
      = 4 := by
  refine ⟨by decide, by decide, by decide, by decide⟩

/-- C8 (amended): calling `updateState` with origin APPLICATION while the
entity is not READY does not throw and issues no native commands, but it
is not a no-op: the delta is applied exactly as in the READY case —
`currentState` is merged, `applicationState` is updated for fields whose
delta value differs from the pre-update `currentState` value (and left
alone for absent or echoed fields), and `temporaryState` entries for
touched fields are removed — because the readiness guard applies only to
SERVICE and SERVICE_TEMPORARY origins.  Only `modifiedState` is left
unchanged. -/
theorem application_update_not_ready_spec (w : WindowModel) (δ : StateDelta)
    (p : Property) (win10 : Bool) (_h : w.lifecycle ≠ LifecycleStage.READY) :
    resultOk (updateState w δ .APPLICATION win10) = true ∧
    resultCommands (updateState w δ .APPLICATION win10) = [] ∧
    (stateAfter (updateState w δ .APPLICATION win10) w).currentState p =
      (δ p).getD (w.currentState p) ∧
    ((δ p = none ∨ δ p = some (w.currentState p)) →
      (stateAfter (updateState w δ .APPLICATION win10) w).applicationState p =
        w.applicationState p) ∧
    (((δ p).isSome ∧ δ p ≠ some (w.currentState p)) →
      (stateAfter (updateState w δ .APPLICATION win10) w).applicationState p =
        (δ p).getD (w.applicationState p)) ∧
    ((δ p).isSome →
      (stateAfter (updateState w δ .APPLICATION win10) w).temporaryState p = none) ∧
    (stateAfter (updateState w δ .APPLICATION win10) w).modifiedState p = w.modifiedState p := by
  rw [updateState_application_eq]
  refine ⟨rfl, rfl, rfl, ?_, ?_, ?_, rfl⟩
  · rintro (h | h) <;> simp [stateAfter, h]
  · rintro ⟨h1, h2⟩
    cases hd : δ p with
    | none => rw [hd] at h1; exact absurd h1 (by simp)
    | some v =>
        rw [hd] at h2
        simp [stateAfter, hd]
        intro hv
        exact absurd (by rw [hv]) h2
  · intro hs
    cases hd : δ p with
    | none => rw [hd] at hs; exact absurd hs (by simp)
    | some v => simp [stateAfter, hd]

/-- Witness for C8 (amended): the STARTING placeholder window receiving an
APPLICATION-origin `opacity := 4` delta (a genuinely changed field, so
`applicationState` is updated as well). -/
theorem application_update_not_ready_spec_witness :
    resultOk (updateState wStarting (deltaOpacity 4) .APPLICATION false) = true ∧
    resultCommands (updateState wStarting (deltaOpacity 4) .APPLICATION false) = [] ∧
    (stateAfter (updateState wStarting (deltaOpacity 4) .APPLICATION false) wStarting).currentState .opacity =
      ((deltaOpacity 4) .opacity).getD (wStarting.currentState .opacity) ∧
    (stateAfter (updateState wStarting (deltaOpacity 4) .APPLICATION false) wStarting).applicationState .opacity =
      ((deltaOpacity 4) .opacity).getD (wStarting.applicationState .opacity) ∧
    (stateAfter (updateState wStarting (deltaOpacity 4) .APPLICATION false) wStarting).temporaryState .opacity
      = none ∧
    (stateAfter (updateState wStarting (deltaOpacity 4) .APPLICATION false) wStarting).modifiedState .opacity =
      wStarting.modifiedState .opacity :=
  have h := application_update_not_ready_spec wStarting (deltaOpacity 4) .opacity false (by decide)
  ⟨h.1, h.2.1, h.2.2.1, h.2.2.2.2.1 ⟨by decide, by decide⟩, h.2.2.2.2.2.1 (by decide),
    h.2.2.2.2.2.2⟩

/-! ## Claim C9 -/

/-- A READY window whose `maximizable` is already `false`, both in
`currentState` and in `applicationState`. -/
def stateMaxFalse : EntityState := fun p =>
  match p with
  | .maximizable => false
  | q => createTemporaryState q

def w9cex : WindowModel :=
  { currentState := stateMaxFalse, applicationState := stateMaxFalse,
    modifiedState := emptyDelta, temporaryState := emptyDelta,
    lifecycle := .READY }

/-- C9 is false as stated: `applyProperties({maximizable:false})` on a READY
window already `maximizable:false` succeeds, but it still issues a
`window.updateOptions` command carrying the unchanged field — option
batching has no value-change check. -/
theorem apply_properties_redundant_command_cex :
    w9cex.currentState .maximizable = false ∧
    resultOk (applyProperties w9cex (deltaMaximizable false) false) = true ∧
    resultCommands (applyProperties w9cex (deltaMaximizable false) false) =
      [NativeCommand.updateOptions ⟨none, none, none, none, none, none, some false⟩] := by
  refine ⟨by decide, by decide, by decide⟩

/-- C9 (amended): `applyProperties({maximizable:false})` on a READY window
whose `maximizable` is already false succeeds, and the field (being equal
to the application value) is dropped from `modifiedState`, but one
redundant `updateOptions` native command carrying the unchanged field is
still issued: batching only skips the window-state field when unchanged,
not option fields. -/
theorem apply_properties_unchanged_field_spec (w : WindowModel)
    (hready : w.lifecycle = LifecycleStage.READY)
    (happ : w.applicationState .maximizable = false) :
    resultOk (applyProperties w (deltaMaximizable false) false) = true ∧
    resultCommands (applyProperties w (deltaMaximizable false) false) =
      [NativeCommand.updateOptions ⟨none, none, none, none, none, none, some false⟩] ∧
    (stateAfter (applyProperties w (deltaMaximizable false) false) w).modifiedState .maximizable
      = none ∧
    (stateAfter (applyProperties w (deltaMaximizable false) false) w).currentState .maximizable
      = false := by
  unfold applyProperties
  rw [updateState_service_eq w (deltaMaximizable false) false hready]
  refine ⟨rfl, rfl, ?_, rfl⟩
  simp [stateAfter, deltaMaximizable, singleDelta_same, happ]

/-- Witness for C9 (amended) at the concrete already-non-maximizable window. -/
theorem apply_properties_unchanged_field_witness :
    resultOk (applyProperties w9cex (deltaMaximizable false) false) = true ∧
    resultCommands (applyProperties w9cex (deltaMaximizable false) false) =
      [NativeCommand.updateOptions ⟨none, none, none, none, none, none, some false⟩] ∧
    (stateAfter (applyProperties w9cex (deltaMaximizable false) false) w9cex).modifiedState .maximizable
      = none ∧
    (stateAfter (applyProperties w9cex (deltaMaximizable false) false) w9cex).currentState .maximizable
      = false :=
  apply_properties_unchanged_field_spec w9cex rfl rfl

/-! ## Claim C3: nested temporary overrides and `resetOverride` -/

/-- Repeated `applyOverride` calls on one property (each potentially a
nested temporary override). -/
def applyOverrides (w : WindowModel) (p : Property) :
    List (PropType p) → Except WinError WindowModel
  | [] => .ok w
  | v :: rest =>
      match applyOverride w p v false with
      | .error e => .error e
      | .ok (w', _) => applyOverrides w' p rest

def overridesOk (r : Except WinError WindowModel) : Bool :=
  match r with
  | .ok _ => true
  | .error _ => false

/-- The model state after a sequence of overrides (the input state if any
step failed). -/
def runOverrides (w : WindowModel) (p : Property) (vs : List (PropType p)) :
    WindowModel :=
  match applyOverrides w p vs with
  | .ok w' => w'
  | .error _ => w

/-- Each override in the sequence changes the property's current value
(the claim's premise that every nested override changes the value). -/
def chainChanges (p : Property) (c : PropType p) : List (PropType p) → Bool
  | [] => true
  | v :: rest => (decide (v ≠ c)) && chainChanges p v rest

theorem applyOverride_proj (w : WindowModel) (p : Property) (v : PropType p)
    (hready : w.lifecycle = LifecycleStage.READY) (hv : v ≠ w.currentState p) :
    ∃ w' cmds, applyOverride w p v false = .ok (w', cmds) ∧
      w'.lifecycle = LifecycleStage.READY ∧
      w'.currentState p = v ∧
      w'.applicationState p = w.applicationState p ∧
      (∀ b, w.temporaryState p = some b → w'.temporaryState p = some b) ∧
      (w.temporaryState p = none → w'.temporaryState p = some (w.currentState p)) := by
  unfold applyOverride
  rw [if_neg hv, updateState_temp_eq w (singleDelta p v) false hready]
  refine ⟨_, _, rfl, hready, ?_, rfl, ?_, ?_⟩
  · simp [singleDelta_same]
  · intro b hb
    simp [singleDelta_same, hb]
  · intro hb
    simp [singleDelta_same, hb]

theorem applyOverrides_invariant (p : Property) (vs : List (PropType p)) :
    ∀ (w : WindowModel) (b : PropType p),
      w.lifecycle = LifecycleStage.READY →
      w.temporaryState p = some b →
      chainChanges p (w.currentState p) vs = true →
      ∃ w', applyOverrides w p vs = .ok w' ∧
        w'.lifecycle = LifecycleStage.READY ∧
        w'.temporaryState p = some b ∧
        w'.currentState p = vs.getLastD (w.currentState p) ∧
        w'.applicationState p = w.applicationState p := by
  induction vs with
  | nil =>
      intro w b h1 h2 _
      exact ⟨w, by simp [applyOverrides], h1, h2, rfl, rfl⟩
  | cons v rest ih =>
      intro w b h1 h2 h3
      rw [chainChanges, Bool.and_eq_true, decide_eq_true_eq] at h3
      obtain ⟨hv, hrest⟩ := h3
      obtain ⟨w1, cmds, heq, hlife, hcur, happ, htempSome, _⟩ :=
        applyOverride_proj w p v h1 hv
      obtain ⟨w', hw', hlife', htemp', hcur', happ'⟩ :=
        ih w1 b hlife (htempSome b h2) (by rw [hcur]; exact hrest)
      refine ⟨w', ?_, hlife', htemp', ?_, happ'.trans happ⟩
      · rw [applyOverrides, heq]
        exact hw'
      · rw [hcur', hcur, List.getLastD_cons]

/-- C3: for every property and every sequence of N ≥ 1 nested
SERVICE_TEMPORARY overrides of that property, each changing its value, on
a READY window with no existing backup: only the first override records a
backup in `temporaryState` (after the whole sequence the backup is still
the pre-first-override value, not an intermediate one); `resetOverride`
then succeeds, restoring the property to its value from before the first
override and removing the `temporaryState` entry, with the SERVICE-origin
`modifiedState` bookkeeping (the entry is cleared exactly when the
restored value matches the application value); and `resetOverride` on a
property with no `temporaryState` entry changes nothing and issues no
command. -/
theorem nested_override_reset_spec (w : WindowModel) (p : Property)
    (vs : List (PropType p)) (u : WindowModel)
    (hready : w.lifecycle = LifecycleStage.READY)
    (hnone : w.temporaryState p = none)
    (hne : vs ≠ [])
    (hchain : chainChanges p (w.currentState p) vs = true)
    (hu : u.temporaryState p = none) :
    overridesOk (applyOverrides w p vs) = true ∧
    (runOverrides w p vs).temporaryState p = some (w.currentState p) ∧
    (runOverrides w p vs).currentState p = vs.getLastD (w.currentState p) ∧
    resultOk (resetOverride (runOverrides w p vs) p false) = true ∧
    (stateAfter (resetOverride (runOverrides w p vs) p false) (runOverrides w p vs)).currentState p
      = w.currentState p ∧
    (stateAfter (resetOverride (runOverrides w p vs) p false) (runOverrides w p vs)).temporaryState p
      = none ∧
    (stateAfter (resetOverride (runOverrides w p vs) p false) (runOverrides w p vs)).modifiedState p
      = (if w.currentState p = w.applicationState p then none
         else some (w.currentState p)) ∧
    resetOverride u p false = .ok (u, []) := by
  obtain ⟨v, rest, rfl⟩ : ∃ v rest, vs = v :: rest := by
    cases vs with
    | nil => exact absurd rfl hne
    | cons a l => exact ⟨a, l, rfl⟩
  rw [chainChanges, Bool.and_eq_true, decide_eq_true_eq] at hchain
  obtain ⟨hv, hrest⟩ := hchain
  obtain ⟨w1, cmds, heq, hlife, hcur, happ, _, htempNone⟩ :=
    applyOverride_proj w p v hready hv
  obtain ⟨W, hW, hWlife, hWtemp, hWcur, hWapp⟩ :=
    applyOverrides_invariant p rest w1 (w.currentState p) hlife (htempNone hnone)
      (by rw [hcur]; exact hrest)
  have hrun : applyOverrides w p (v :: rest) = .ok W := by
    rw [applyOverrides, heq]
    exact hW
  have hrunW : runOverrides w p (v :: rest) = W := by
    rw [runOverrides, hrun]
  have happW : W.applicationState p = w.applicationState p := hWapp.trans happ
  rw [hrunW]
  have hreset :
      resetOverride W p false =
        updateState { W with currentState := Function.update W.currentState p (w.currentState p) }
          (singleDelta p (w.currentState p)) .SERVICE false := by
    rw [resetOverride, hWtemp]
  have hready2 :
      ({ W with currentState := Function.update W.currentState p (w.currentState p) } :
        WindowModel).lifecycle = LifecycleStage.READY := hWlife
  rw [hreset, updateState_service_eq _ _ _ hready2]
  refine ⟨?_, hWtemp, ?_, rfl, ?_, ?_, ?_, ?_⟩
  · simp [overridesOk, hrun]
  · rw [hWcur, hcur, List.getLastD_cons]
  · simp [stateAfter, singleDelta_same]
  · simp [stateAfter, singleDelta_same]
  · simp only [stateAfter]
    rw [singleDelta_same]
    simp only [happW]
  · rw [resetOverride, hu]

/-- Witness for C3: two nested opacity overrides (1 → 3 → 5) on the
placeholder READY window, then `resetOverride`, restoring opacity 1. -/
theorem nested_override_reset_witness :
    overridesOk (applyOverrides w0 .opacity [3, 5]) = true ∧
    (runOverrides w0 .opacity [3, 5]).temporaryState .opacity = some (w0.currentState .opacity) ∧
    (runOverrides w0 .opacity [3, 5]).currentState .opacity =
      List.getLastD [3, 5] (w0.currentState .opacity) ∧
    resultOk (resetOverride (runOverrides w0 .opacity [3, 5]) .opacity false) = true ∧
    (stateAfter (resetOverride (runOverrides w0 .opacity [3, 5]) .opacity false)
        (runOverrides w0 .opacity [3, 5])).currentState .opacity = w0.currentState .opacity ∧
    (stateAfter (resetOverride (runOverrides w0 .opacity [3, 5]) .opacity false)
        (runOverrides w0 .opacity [3, 5])).temporaryState .opacity = none ∧
    (stateAfter (resetOverride (runOverrides w0 .opacity [3, 5]) .opacity false)
        (runOverrides w0 .opacity [3, 5])).modifiedState .opacity =
      (if w0.currentState .opacity = w0.applicationState .opacity then none
       else some (w0.currentState .opacity)) ∧
    resetOverride w0 .opacity false = .ok (w0, []) :=
  nested_override_reset_spec w0 .opacity [3, 5] w0 rfl rfl (by decide) (by decide) rfl

/-! ## Claim C4: the sync barrier -/

/-- Boundedness of one sync run: resolution within at most `MAX_AWAITS`
awaits, or rejection after exactly `MAX_AWAITS` awaits. -/
def syncBounded (r : Except Nat Nat) : Bool :=
  match r with
  | .error m => decide (m = MAX_AWAITS)
  | .ok n => decide (n ≤ MAX_AWAITS)

theorem syncFrom_ok (pending : Nat → Bool) (n : Nat) (hn : n ≤ MAX_AWAITS) :
    ∀ d start, n - start = d → start ≤ n →
      (∀ k, start ≤ k → k < n → pending k = true) → pending n = false →
      syncFrom pending start = .ok n := by
  have hn10 : n ≤ 10 := hn
  intro d
  induction d with
  | zero =>
      intro start hd hle hall hfalse
      have hsn : start = n := by omega
      subst hsn
      unfold syncFrom
      simp [hfalse]
  | succ m ih =>
      intro start hd hle hall hfalse
      have h1 : start < n := by omega
      have hp : pending start = true := hall start le_rfl h1
      unfold syncFrom
      rw [hp, if_pos rfl, dif_pos (show start + 1 ≤ MAX_AWAITS from by
        show start + 1 ≤ 10
        omega)]
      exact ih (start + 1) (by omega) (by omega)
        (fun k hk1 hk2 => hall k (by omega) hk2) hfalse

theorem syncFrom_error (pending : Nat → Bool)
    (hall : ∀ k, k ≤ MAX_AWAITS → pending k = true) :
    ∀ d start, MAX_AWAITS - start = d → start ≤ MAX_AWAITS →
      syncFrom pending start = .error MAX_AWAITS := by
  intro d
  induction d with
  | zero =>
      intro start hd hle
      have h0 : start ≤ 10 := hle
      have h1 : (10 : Nat) - start = 0 := hd
      have hsn : start = MAX_AWAITS := show start = 10 by omega
      subst hsn
      unfold syncFrom
      rw [hall MAX_AWAITS le_rfl, if_pos rfl,
        dif_neg (show ¬ MAX_AWAITS + 1 ≤ MAX_AWAITS from by decide)]
  | succ m ih =>
      intro start hd hle
      have h0 : start ≤ 10 := hle
      have h1 : (10 : Nat) - start = m + 1 := hd
      have hlt : start < 10 := by omega
      unfold syncFrom
      rw [hall start (by exact h0), if_pos rfl,
        dif_pos (show start + 1 ≤ MAX_AWAITS from by
          show start + 1 ≤ 10
          omega)]
      exact ih (start + 1) (show (10 : Nat) - (start + 1) = m by omega)
        (show start + 1 ≤ 10 by omega)

theorem syncFrom_bounds (pending : Nat → Bool) :
    ∀ d start, MAX_AWAITS - start = d → start ≤ MAX_AWAITS →
      syncBounded (syncFrom pending start) = true := by
  intro d
  induction d with
  | zero =>
      intro start hd hle
      have h1 : (10 : Nat) - start = 0 := hd
      have h0 : start ≤ 10 := hle
      have hsn : start = MAX_AWAITS := show start = 10 by omega
      subst hsn
      unfold syncFrom
      cases hp : pending MAX_AWAITS with
      | false => simp [hp, syncBounded]
      | true =>
          rw [if_pos rfl,
            dif_neg (show ¬ MAX_AWAITS + 1 ≤ MAX_AWAITS from by decide)]
          simp [syncBounded]
  | succ m ih =>
      intro start hd hle
      have h1 : (10 : Nat) - start = m + 1 := hd
      have h0 : start ≤ 10 := hle
      unfold syncFrom
      cases hp : pending start with
      | false =>
          rw [if_neg (by simp [hp])]
          simp only [syncBounded, decide_eq_true_eq]
          exact h0
      | true =>
          rw [if_pos rfl,
            dif_pos (show start + 1 ≤ MAX_AWAITS from by
              show start + 1 ≤ 10
              omega)]
          exact ih (start + 1) (show (10 : Nat) - (start + 1) = m by omega)
            (show start + 1 ≤ 10 by omega)

/-- C4: `sync()` resolves once all pending actions have settled — if the
pending list (as re-observed after each await, so actions newly queued
during the wait are awaited too) first becomes empty at await round
`n ≤ 10`, it resolves after exactly `n` awaits; when the list keeps being
refilled through round 10, it rejects after exactly `MAX_AWAITS = 10`
unsatisfied wait rounds; and every run is bounded — it either resolves
within 10 awaits or rejects at exactly 10, never looping unboundedly. -/
theorem sync_bounded_spec (pending : Nat → Bool) (n : Nat)
    (hn : n ≤ MAX_AWAITS) (hbefore : ∀ k, k < n → pending k = true) :
    (pending n = false → syncModel pending = .ok n) ∧
    (n = MAX_AWAITS → pending n = true → syncModel pending = .error MAX_AWAITS) ∧
    syncBounded (syncModel pending) = true := by
  refine ⟨?_, ?_, ?_⟩
  · intro hfalse
    exact syncFrom_ok pending n hn n 0 rfl (Nat.zero_le n)
      (fun k _ hk => hbefore k hk) hfalse
  · intro hmax htrue
    have hall : ∀ k, k ≤ MAX_AWAITS → pending k = true := by
      intro k hk
      rcases Nat.lt_or_ge k n with h | h
      · exact hbefore k h
      · have : k = n := by
          have hk10 : k ≤ 10 := hk
          have hn10 : (10 : Nat) ≤ n := Nat.le_of_eq hmax.symm
          omega
        rw [this]
        exact htrue
    exact syncFrom_error pending hall MAX_AWAITS 0 rfl (Nat.zero_le _)
  · exact syncFrom_bounds pending MAX_AWAITS 0 rfl (Nat.zero_le _)

/-- Witness for C4: a pending list that empties after 3 awaits resolves
with 3 awaits; a list that is never empty rejects after exactly 10. -/
theorem sync_bounded_witness :
    syncModel (fun k => decide (k < 3)) = .ok 3 ∧
    syncModel (fun _ => true) = .error MAX_AWAITS ∧
    syncBounded (syncModel (fun _ => true)) = true :=
  ⟨(sync_bounded_spec (fun k => decide (k < 3)) 3 (by decide)
      (fun k hk => decide_eq_true hk)).1 (by decide),
   (sync_bounded_spec (fun _ => true) MAX_AWAITS le_rfl (fun _ _ => rfl)).2.1 rfl rfl,
   (sync_bounded_spec (fun _ => true) MAX_AWAITS le_rfl (fun _ _ => rfl)).2.2⟩

/-! ## Claim C2: transactions with a failing transform -/

/-- C2 is false as stated: with one window and a transform that rejects,
the transaction's trace contains the debounced-removal call and the
failure propagates, but no re-snap of the involved window ever happens —
the snap phase lives inside the `try` block after `transform`, not in the
guaranteed-cleanup path. -/
theorem transaction_failure_no_resnap_cex :
    (transactionModel [0] ([], Except.error "boom")).2 = Except.error "boom" ∧
    TxOp.removeCall ∈ (transactionModel [0] ([], Except.error "boom")).1 ∧
    TxOp.snapOp 0 ∉ (transactionModel [0] ([], Except.error "boom")).1 := by
  refine ⟨rfl, by decide, by decide⟩

/-- C2 (amended): when `transform` rejects, the transaction's trace is
exactly the syncs, the unsnaps, the transform's own operations and the
debounced-removal trigger — no window is re-snapped — and the transform's
failure propagates to the caller; only when `transform` succeeds are all
windows re-snapped before the debounced removal is triggered. -/
theorem transaction_failure_spec (windows : List Nat) (ttrace : List TxOp)
    (e : String) :
    transactionModel windows (ttrace, .error e) =
      (windows.map TxOp.syncOp ++ windows.map TxOp.unsnapOp ++ ttrace ++
        [TxOp.removeCall], .error e) ∧
    transactionModel windows (ttrace, .ok ()) =
      (windows.map TxOp.syncOp ++ windows.map TxOp.unsnapOp ++ ttrace ++
        windows.map TxOp.snapOp ++ [TxOp.removeCall], .ok ()) := by
  constructor <;>
    simp [transactionModel, txFinally, txSeq, txForEach, List.append_assoc]

/-! ## Claim C6: the bounds-transform classifier scenario -/

/-- The bounds-change record at the start of the drag: start bounds center
(100,100), half-size (50,50), no transform classified yet. -/
def startBC : BoundsChange := ⟨0, ⟨⟨100, 100⟩, ⟨50, 50⟩⟩⟩

/-- The first sample: center (100,100), half-size (60,50), i.e. edge-based
bounds (left 40, top 50, width 120, height 100). -/
def sample1 : WindowBoundsEvent := ⟨40, 50, 120, 100, 0⟩

/-- The second sample: center (103,100), half-size (50,50), i.e. edge-based
bounds (left 53, top 50, width 100, height 100). -/
def sample2 : WindowBoundsEvent := ⟨53, 50, 100, 100, 0⟩

/-- C6 is false as stated for the first sample: with display scaling in
effect, from start center (100,100) half-size (50,50), the sample with
center (100,100) and half-size (60,50) is classified as pure MOVE — the
MOVE bit is set and the result is not RESIZE-only.  (The x-axis size grew
symmetrically, so the observed center deviates by 10 > 2 from the center
expected for a single-edge resize, marking the axis moved as well, and
the move bias collapses the mask to pure MOVE.) -/
theorem classifier_symmetric_resize_cex :
    (updateTransformType true false sample1 startBC).1 = MOVE ∧
    (updateTransformType true false sample1 startBC).1 &&& MOVE ≠ 0 ∧
    (updateTransformType true false sample1 startBC).1 ≠ RESIZE := by
  refine ⟨?_, ?_, ?_⟩ <;>
    · unfold updateTransformType checkBounds evaluateAxis signQ
      norm_num [sample1, startBC, MINIMUM_RESIZE_CHANGE, MINIMUM_MOVE_CHANGE,
        MOVE, RESIZE]

/-- C6 (amended): with display scaling in effect, from start center
(100,100) and half-size (50,50): the sample with center (100,100) and
half-size (60,50) is classified MOVE only (its x axis is marked both
resized — size delta 20 > threshold — and moved — the unchanged center
deviates by 10 > threshold from the consistently-signed-edge expectation —
and any MOVE bit collapses the mask to pure MOVE); the sample with center
(103,100) and half-size (50,50) is classified MOVE only, with no RESIZE
bit. -/
theorem classifier_scenario_spec :
    evaluateAxis 100 50 (40 + 120 / 2 : ℚ) (120 / 2 : ℚ) = (MOVE ||| RESIZE) ∧
    (updateTransformType true false sample1 startBC).1 = MOVE ∧
    (updateTransformType true false sample2 startBC).1 = MOVE ∧
    (updateTransformType true false sample2 startBC).1 &&& RESIZE = 0 := by
  refine ⟨?_, ?_, ?_, ?_⟩
  · unfold evaluateAxis signQ
    norm_num [MINIMUM_RESIZE_CHANGE, MINIMUM_MOVE_CHANGE, MOVE, RESIZE]
    try decide
  · unfold updateTransformType checkBounds evaluateAxis signQ
    norm_num [sample1, startBC, MINIMUM_RESIZE_CHANGE, MINIMUM_MOVE_CHANGE,
      MOVE, RESIZE]
  · unfold updateTransformType checkBounds evaluateAxis signQ
    norm_num [sample2, startBC, MINIMUM_RESIZE_CHANGE, MINIMUM_MOVE_CHANGE,
      MOVE, RESIZE]
  · unfold updateTransformType checkBounds evaluateAxis signQ
    norm_num [sample2, startBC, MINIMUM_RESIZE_CHANGE, MINIMUM_MOVE_CHANGE,
      MOVE, RESIZE]

/-! ## Claim C10: the `currentState` getter -/

/-- C10: for a window whose stored state field is `maximized`, the getter
returns the stored state with its geometry fields (`center`, `halfSize`)
overwritten by the monitor rectangle containing the stored bounds, all
other fields taken from the stored state; the stored state itself is not
modified (the getter is a pure function of it).  For any other window
state the getter returns the stored state unchanged. -/
theorem current_state_getter_spec (monitorFor : RectQ → RectQ)
    (stored : EntityState) (p : Property) :
    (stored .state = WinState.maximized →
      currentStateGetter monitorFor stored .center =
        (monitorFor ⟨stored .center, stored .halfSize⟩).center ∧
      currentStateGetter monitorFor stored .halfSize =
        (monitorFor ⟨stored .center, stored .halfSize⟩).halfSize ∧
      (geometryProp p = false → currentStateGetter monitorFor stored p = stored p)) ∧
    (stored .state ≠ WinState.maximized →
      currentStateGetter monitorFor stored p = stored p) := by
  constructor
  · intro h
    unfold currentStateGetter
    rw [if_pos h]
    refine ⟨rfl, rfl, ?_⟩
    intro hp
    cases p <;> first
      | rfl
      | exact absurd hp (by decide)
  · intro h
    unfold currentStateGetter
    rw [if_neg h]

/-- The stored state of a maximized window (the placeholder state with
`state := maximized`). -/
def storedMax : EntityState := fun p =>
  match p with
  | .state => WinState.maximized
  | q => createTemporaryState q

/-- A monitor lookup placing every rectangle on one 1920 x 1080 monitor. -/
def monitorConst : RectQ → RectQ := fun _ => ⟨⟨960, 540⟩, ⟨960, 540⟩⟩

/-- Witness for C10: the maximized placeholder window gets the monitor's
center while keeping its non-geometry fields; a normal-state window is
returned unchanged. -/
theorem current_state_getter_witness :
    currentStateGetter monitorConst storedMax .center =
      (monitorConst ⟨storedMax .center, storedMax .halfSize⟩).center ∧
    currentStateGetter monitorConst storedMax .opacity = storedMax .opacity ∧
    currentStateGetter monitorConst createTemporaryState .opacity =
      createTemporaryState .opacity :=
  ⟨((current_state_getter_spec monitorConst storedMax .opacity).1 rfl).1,
   ((current_state_getter_spec monitorConst storedMax .opacity).1 rfl).2.2 rfl,
   (current_state_getter_spec monitorConst createTemporaryState .opacity).2
     (by decide)⟩

/-! ## Claim C5: event deferral during transactions -/

/-- Whether the event's target window resolves in the model to a window of
transaction `t`. -/
def targetInTransaction (model : List GroupWindow) (ev : GroupChangedEvent)
    (t : Transaction) : Bool :=
  match getWindow model ⟨ev.targetWindowAppUuid, ev.targetWindowName⟩ with
  | some tw => t.windowIds.contains tw.id
  | none => false

theorem mem_relevantTransactions (model : List GroupWindow)
    (txs : List Transaction) (ev : GroupChangedEvent) (t : Transaction) :
    t ∈ relevantTransactions model txs ev ↔
      (t ∈ txs ∧ targetInTransaction model ev t = true) := by
  rw [relevantTransactions, List.mem_filter]
  unfold targetInTransaction
  cases hw : getWindow model ⟨ev.targetWindowAppUuid, ev.targetWindowName⟩ with
  | none => simp
  | some tw => simp

/-- Window A, alone in its group, inside an active transaction. -/
def winA5 : GroupWindow := ⟨⟨"app", "A"⟩, [⟨"app", "A"⟩]⟩

/-- Window T, outside any transaction. -/
def winT5 : GroupWindow := ⟨⟨"app", "T"⟩, [⟨"app", "T"⟩]⟩

/-- A transaction containing only window A. -/
def tx5 : Transaction := ⟨0, ["app/A"]⟩

/-- A transaction containing only window T. -/
def tx5b : Transaction := ⟨5, ["app/T"]⟩

/-- A join event sourced at A (self-sourced, so fully processed by A's
handler) whose target window is T. -/
def ev5 : GroupChangedEvent :=
  { uuid := "app", name := "A", sourceWindowAppUuid := "app",
    sourceWindowName := "A", targetWindowAppUuid := "app",
    targetWindowName := "T", reason := .join,
    sourceGroup := [], targetGroup := [⟨"app", "T"⟩] }

/-- C5 is false as stated: window A is inside an active transaction, yet
the join event concerning A (A is its source window) is processed — A is
reassigned toward T's group — rather than deferred, because the handler
only checks whether the event's *target* window is in a transaction. -/
theorem transaction_event_suppression_cex :
    winA5.id ∈ tx5.windowIds ∧
    handleGroupChanged winA5 [winA5, winT5] [tx5] ev5 = .joinTarget "app/T" ∧
    (handleGroupChanged winA5 [winA5, winT5] [tx5] ev5).isDeferred = false := by
  refine ⟨by decide, by decide, by decide⟩

/-- C5 (amended): while transactions are active, a (self-sourced)
group-change event is deferred — left unprocessed, with the debounced
removal of each relevant transaction postponed — exactly when the event's
target window resolves in the model to a window of an active transaction,
whatever the event's reason; the postponed transactions are exactly those
containing the target window.  Events whose target window is not in any
active transaction are processed normally, even when the event's source
window is inside one. -/
theorem transaction_event_deferral_spec (self : GroupWindow)
    (model : List GroupWindow) (txs : List Transaction)
    (ev : GroupChangedEvent) (t : Transaction)
    (hname : ev.name = ev.sourceWindowName)
    (huuid : ev.uuid = ev.sourceWindowAppUuid)
    (hrel : relevantTransactions model txs ev ≠ []) :
    handleGroupChanged self model txs ev =
      .deferred ((relevantTransactions model txs ev).map Transaction.label) ∧
    (t ∈ relevantTransactions model txs ev ↔
      (t ∈ txs ∧ targetInTransaction model ev t = true)) := by
  constructor
  · simp only [handleGroupChanged]
    rw [if_neg (not_or.mpr ⟨not_not_intro hname, not_not_intro huuid⟩),
      if_pos hrel]
  · exact mem_relevantTransactions model txs ev t

/-- Witness for C5 (amended): the same join event with T now inside an
active transaction is deferred, postponing exactly that transaction. -/
theorem transaction_event_deferral_witness :
    handleGroupChanged winA5 [winA5, winT5] [tx5b] ev5 =
      .deferred ((relevantTransactions [winA5, winT5] [tx5b] ev5).map Transaction.label) ∧
    (tx5b ∈ relevantTransactions [winA5, winT5] [tx5b] ev5 ↔
      (tx5b ∈ [tx5b] ∧ targetInTransaction [winA5, winT5] ev5 tx5b = true)) :=
  transaction_event_deferral_spec winA5 [winA5, winT5] [tx5b] ev5 tx5b rfl rfl
    (by decide)

/-! ## Claim C7: the group-leave protocol -/

/-- C7: for a `leave` group-change event as delivered to an entity (the
runtime stamps the event's `uuid`/`name` with the receiving window's
identity): an entity whose identity differs from the event's source-window
identity does nothing (deduplication); the source entity — absent any
transaction deferral — moves itself into a brand-new singleton group when
its current group has more than one member and its members match the
event's reported source group plus the entity itself under the
order-independent comparison (both sides sorted by owner id then name),
and otherwise leaves its group assignment unchanged. -/
theorem group_leave_spec (self : GroupWindow) (model : List GroupWindow)
    (txs : List Transaction) (ev : GroupChangedEvent)
    (hreason : ev.reason = .leave)
    (huuid : ev.uuid = self.identity.uuid) (hname : ev.name = self.identity.name) :
    ((self.identity.name ≠ ev.sourceWindowName ∨
      self.identity.uuid ≠ ev.sourceWindowAppUuid) →
        handleGroupChanged self model txs ev = .duplicate ∧
        applyOutcome self (handleGroupChanged self model txs ev) = self) ∧
    (self.identity.name = ev.sourceWindowName →
     self.identity.uuid = ev.sourceWindowAppUuid →
     relevantTransactions model txs ev = [] →
      ((self.groupMembers.length > 1 ∧
          compareSnapAndEventWindowArrays self.groupMembers
            (ev.sourceGroup ++ [⟨self.identity.uuid, self.identity.name⟩]) = true) →
          handleGroupChanged self model txs ev = .regroupSingleton ∧
          (applyOutcome self (handleGroupChanged self model txs ev)).groupMembers
            = [self.identity]) ∧
      (¬ (self.groupMembers.length > 1 ∧
          compareSnapAndEventWindowArrays self.groupMembers
            (ev.sourceGroup ++ [⟨self.identity.uuid, self.identity.name⟩]) = true) →
          handleGroupChanged self model txs ev = .noAction ∧
          applyOutcome self (handleGroupChanged self model txs ev) = self)) := by
  constructor
  · intro h
    have hcond : ev.name ≠ ev.sourceWindowName ∨ ev.uuid ≠ ev.sourceWindowAppUuid := by
      cases h with
      | inl h => exact Or.inl (by rw [hname]; exact h)
      | inr h => exact Or.inr (by rw [huuid]; exact h)
    simp only [handleGroupChanged]
    rw [if_pos hcond]
    exact ⟨rfl, rfl⟩
  · intro hsn hsu hrel
    have hcond : ¬ (ev.name ≠ ev.sourceWindowName ∨ ev.uuid ≠ ev.sourceWindowAppUuid) :=
      not_or.mpr ⟨not_not_intro (hname.trans hsn), not_not_intro (huuid.trans hsu)⟩
    constructor
    · intro hmatch
      simp only [handleGroupChanged]
      rw [if_neg hcond, if_neg (not_not_intro hrel), hreason]
      rw [if_pos hmatch]
      exact ⟨rfl, rfl⟩
    · intro hmatch
      simp only [handleGroupChanged]
      rw [if_neg hcond, if_neg (not_not_intro hrel), hreason]
      rw [if_neg hmatch]
      exact ⟨rfl, rfl⟩

def idA7 : WindowIdentity := ⟨"app", "A"⟩
def idB7 : WindowIdentity := ⟨"app", "B"⟩
def idC7 : WindowIdentity := ⟨"app", "C"⟩

def winA7 : GroupWindow := ⟨idA7, [idA7, idB7, idC7]⟩
def winB7 : GroupWindow := ⟨idB7, [idA7, idB7, idC7]⟩
def winC7 : GroupWindow := ⟨idC7, [idA7, idB7, idC7]⟩

def model7 : List GroupWindow := [winA7, winB7, winC7]

/-- The leave event raised on C's own leave from group A,B,C, reporting
source group A,B — as delivered to C itself. -/
def evLeave7 : GroupChangedEvent :=
  { uuid := "app", name := "C", sourceWindowAppUuid := "app",
    sourceWindowName := "C", targetWindowAppUuid := "app",
    targetWindowName := "C", reason := .leave,
    sourceGroup := [⟨"app", "A"⟩, ⟨"app", "B"⟩], targetGroup := [] }

/-- The duplicated copy of the same leave event as delivered to A. -/
def evLeave7A : GroupChangedEvent := { evLeave7 with uuid := "app", name := "A" }

/-- Witness for C7: in the group A,B,C scenario where C leaves, A's
delivered duplicate is a no-op, while C's own event moves C into a
brand-new singleton group. -/
theorem group_leave_witness :
    (handleGroupChanged winA7 model7 [] evLeave7A = .duplicate ∧
      applyOutcome winA7 (handleGroupChanged winA7 model7 [] evLeave7A) = winA7) ∧
    (handleGroupChanged winC7 model7 [] evLeave7 = .regroupSingleton ∧
      (applyOutcome winC7 (handleGroupChanged winC7 model7 [] evLeave7)).groupMembers
        = [winC7.identity]) :=
  ⟨(group_leave_spec winA7 model7 [] evLeave7A rfl rfl rfl).1 (Or.inl (by decide)),
   ((group_leave_spec winC7 model7 [] evLeave7 rfl rfl rfl).2 rfl rfl rfl).1
     ⟨by decide, by decide⟩⟩

end DesktopWindowSpec
